import Mathlib

/-!
Verification of the layer forward passes and orchestration scripts of the
SGN patching repository against its natural-language specification.

The layer code lives in `edward2/tensorflow/layers/convolutional.py`; the
scripts live in `train/`, `subsample/` and `main_train.py`.  Tensors are
shallowly embedded as functions from (batch, spatial..., channel) indices to
rationals; numerically opaque host-framework primitives (the convolution op,
activations, `log`/`exp`/`sqrt`, and distribution sampling) are taken as
parameters, while every piece of arithmetic, broadcasting, tiling, reshaping
and control flow written in the repository itself is embedded concretely.
-/

namespace SGN

/-- A 4-D tensor in `NHWC` layout (batch, height, width, channel), entries
taken in `ℚ`.  Kernels `[kh, kw, cin, cout]` use the same representation. -/
def Tensor4 : Type := Nat → Nat → Nat → Nat → ℚ

/-- A 3-D tensor in `NWC` layout (batch, width, channel). -/
def Tensor3 : Type := Nat → Nat → Nat → ℚ

/-- Elementwise sum of two 4-D tensors (`outputs += ...`). -/
def add4 (s t : Tensor4) : Tensor4 := fun b h w c => s b h w c + t b h w c

/-- Elementwise sum of two 3-D tensors. -/
def add3 (s t : Tensor3) : Tensor3 := fun b w c => s b w c + t b w c

/-- Elementwise difference of two kernels (`self.kernel - kernel_mean`). -/
def sub4 (s t : Tensor4) : Tensor4 := fun i j k l => s i j k l - t i j k l

/-- Elementwise difference of two 1-D-conv kernels. -/
def sub3 (s t : Tensor3) : Tensor3 := fun i j k => s i j k - t i j k

/-- `tf.nn.bias_add(outputs, bias, data_format='NHWC')`: the bias vector is
added along the trailing channel axis. -/
def biasAdd4 (t : Tensor4) (bias : Nat → ℚ) : Tensor4 :=
  fun b h w c => t b h w c + bias c

/-- `tf.nn.bias_add(outputs, bias, data_format='NWC')`. -/
def biasAdd3 (t : Tensor3) (bias : Nat → ℚ) : Tensor3 :=
  fun b w c => t b w c + bias c

/-- Multiplication `inputs * sign_input` with `sign_input` of shape
`[batch_dim, 1, 1, channels]`: the sign tensor is indexed by example and
input channel and broadcasts over the two spatial axes. -/
def mulSignIn4 (t : Tensor4) (s : Nat → Nat → ℚ) : Tensor4 :=
  fun b h w c => t b h w c * s b c

/-- Multiplication `... * sign_output` with `sign_output` of shape
`[batch_dim, 1, 1, filters]`: indexed by example and output filter,
broadcasting over the spatial axes. -/
def mulSignOut4 (t : Tensor4) (s : Nat → Nat → ℚ) : Tensor4 :=
  fun b h w f => t b h w f * s b f

/-- `inputs * sign_input` for the 1-D layer, `sign_input : [batch, 1, channels]`. -/
def mulSignIn3 (t : Tensor3) (s : Nat → Nat → ℚ) : Tensor3 :=
  fun b w c => t b w c * s b c

/-- `... * sign_output` for the 1-D layer, `sign_output : [batch, 1, filters]`. -/
def mulSignOut3 (t : Tensor3) (s : Nat → Nat → ℚ) : Tensor3 :=
  fun b w f => t b w f * s b f

/-- One entry of `2 * tf.random.uniform(shape, minval=0, maxval=2, dtype=int32) - 1`
where `u` is the drawn integer (the uniform draw contract gives `u < 2`). -/
def signVal (u : Nat) : ℚ := 2 * (u : ℚ) - 1

/-- Pointwise application of an optional elementwise activation
(`if self.activation is not None: outputs = self.activation(outputs)`). -/
def applyActivation4 (a : Option (ℚ → ℚ)) (t : Tensor4) : Tensor4 :=
  match a with
  | none => t
  | some f => fun b h w c => f (t b h w c)

/-- Pointwise application of an optional elementwise activation, 1-D case. -/
def applyActivation3 (a : Option (ℚ → ℚ)) (t : Tensor3) : Tensor3 :=
  match a with
  | none => t
  | some f => fun b w c => f (t b w c)

/-- State of a `Conv2DReparameterization` / `Conv2DFlipout` layer at the time
`call` runs, after `call_weights` (which replaces `self.kernel` / `self.bias`
only when the corresponding initializer is itself a layer).  `kernel` is the
current kernel value (the random-variable sample when `kernelIsRV`), and
`kernelMean` is `self.kernel.distribution.mean()`. -/
structure Conv2DState where
  use_bias : Bool
  activation : Option (ℚ → ℚ)
  kernelIsRV : Bool
  kernel : Tensor4
  kernelMean : Tensor4
  bias : Nat → ℚ

/-- State of a `Conv1DReparameterization` / `Conv1DFlipout` layer. -/
structure Conv1DState where
  use_bias : Bool
  activation : Option (ℚ → ℚ)
  kernelIsRV : Bool
  kernel : Tensor3
  kernelMean : Tensor3
  bias : Nat → ℚ

/-- The base `tf.keras.layers.Conv2D.call`: convolution with `self.kernel`,
bias-add when `use_bias`, then the activation.  The convolution op `conv`
(strides, padding, dilations already applied) is a host-framework primitive
and is passed in as a parameter. -/
def Conv2D_baseCall (conv : Tensor4 → Tensor4 → Tensor4) (L : Conv2DState)
    (inputs : Tensor4) : Tensor4 :=
  applyActivation4 L.activation
    (if L.use_bias then biasAdd4 (conv inputs L.kernel) L.bias
     else conv inputs L.kernel)

/-- The base `tf.keras.layers.Conv1D.call`. -/
def Conv1D_baseCall (conv : Tensor3 → Tensor3 → Tensor3) (L : Conv1DState)
    (inputs : Tensor3) : Tensor3 :=
  applyActivation3 L.activation
    (if L.use_bias then biasAdd3 (conv inputs L.kernel) L.bias
     else conv inputs L.kernel)

/-- `Conv2DReparameterization.call`: `call_weights` (already reflected in the
state) followed by the parent `Conv2D.call`. -/
def Conv2DReparameterization_call (conv : Tensor4 → Tensor4 → Tensor4)
    (L : Conv2DState) (inputs : Tensor4) : Tensor4 :=
  Conv2D_baseCall conv L inputs

/-- `Conv1DReparameterization.call`. -/
def Conv1DReparameterization_call (conv : Tensor3 → Tensor3 → Tensor3)
    (L : Conv1DState) (inputs : Tensor3) : Tensor3 :=
  Conv1D_baseCall conv L inputs

/-- `Conv2DFlipout._apply_kernel` (channels_last): draws the per-example input
and output sign tensors from integer uniform draws `rIn`, `rOut` over
`{0, 1}`, convolves the inputs with the kernel mean, and adds the sign-flipped
perturbation term. -/
def Conv2DFlipout_applyKernel (conv : Tensor4 → Tensor4 → Tensor4)
    (L : Conv2DState) (inputs : Tensor4) (rIn rOut : Nat → Nat → Nat) :
    Tensor4 :=
  let sIn : Nat → Nat → ℚ := fun b c => signVal (rIn b c)
  let sOut : Nat → Nat → ℚ := fun b f => signVal (rOut b f)
  add4 (conv inputs L.kernelMean)
    (mulSignOut4 (conv (mulSignIn4 inputs sIn) (sub4 L.kernel L.kernelMean))
      sOut)

/-- `Conv1DFlipout._apply_kernel` (channels_last). -/
def Conv1DFlipout_applyKernel (conv : Tensor3 → Tensor3 → Tensor3)
    (L : Conv1DState) (inputs : Tensor3) (rIn rOut : Nat → Nat → Nat) :
    Tensor3 :=
  let sIn : Nat → Nat → ℚ := fun b c => signVal (rIn b c)
  let sOut : Nat → Nat → ℚ := fun b f => signVal (rOut b f)
  add3 (conv inputs L.kernelMean)
    (mulSignOut3 (conv (mulSignIn3 inputs sIn) (sub3 L.kernel L.kernelMean))
      sOut)

/-- `Conv2DFlipout.call`: falls back to the parent reparameterization `call`
when `self.kernel` is not a `RandomVariable`; otherwise applies the Flipout
kernel estimate, the bias and the activation. -/
def Conv2DFlipout_call (conv : Tensor4 → Tensor4 → Tensor4) (L : Conv2DState)
    (inputs : Tensor4) (rIn rOut : Nat → Nat → Nat) : Tensor4 :=
  if L.kernelIsRV = false then Conv2DReparameterization_call conv L inputs
  else
    let outputs := Conv2DFlipout_applyKernel conv L inputs rIn rOut
    let outputs := if L.use_bias then biasAdd4 outputs L.bias else outputs
    applyActivation4 L.activation outputs

/-- `Conv1DFlipout.call`. -/
def Conv1DFlipout_call (conv : Tensor3 → Tensor3 → Tensor3) (L : Conv1DState)
    (inputs : Tensor3) (rIn rOut : Nat → Nat → Nat) : Tensor3 :=
  if L.kernelIsRV = false then Conv1DReparameterization_call conv L inputs
  else
    let outputs := Conv1DFlipout_applyKernel conv L inputs rIn rOut
    let outputs := if L.use_bias then biasAdd3 outputs L.bias else outputs
    applyActivation3 L.activation outputs

/-- The formula claimed for the Flipout forward pass, 2-D case:
`activation(bias_add(conv(inputs, mean) + conv(inputs * s_in, kernel - mean) * s_out, bias))`. -/
def flipoutFormula2D (conv : Tensor4 → Tensor4 → Tensor4) (a : ℚ → ℚ)
    (L : Conv2DState) (inputs : Tensor4) (rIn rOut : Nat → Nat → Nat) :
    Tensor4 :=
  fun b h w f =>
    a ((conv inputs L.kernelMean) b h w f +
        (conv (mulSignIn4 inputs (fun i c => signVal (rIn i c)))
          (sub4 L.kernel L.kernelMean)) b h w f * signVal (rOut b f) +
        L.bias f)

/-- The claimed Flipout formula, 1-D case. -/
def flipoutFormula1D (conv : Tensor3 → Tensor3 → Tensor3) (a : ℚ → ℚ)
    (L : Conv1DState) (inputs : Tensor3) (rIn rOut : Nat → Nat → Nat) :
    Tensor3 :=
  fun b w f =>
    a ((conv inputs L.kernelMean) b w f +
        (conv (mulSignIn3 inputs (fun i c => signVal (rIn i c)))
          (sub3 L.kernel L.kernelMean)) b w f * signVal (rOut b f) +
        L.bias f)

theorem signVal_pm_one {u : Nat} (hu : u < 2) :
    signVal u = -1 ∨ signVal u = 1 := by
  interval_cases u
  · left; simp [signVal]
  · right; norm_num [signVal]

/-- **C1.** For every input batch whose kernel is a `RandomVariable`,
`Conv2DFlipout.call` returns
`activation(bias_add(conv(inputs, mean(kernel)) + conv(inputs * s_in, kernel - mean(kernel)) * s_out, bias))`,
where the freshly drawn per-example sign tensors `s_in` (indexed by example
and input channel, broadcast over the spatial axes) and `s_out` (indexed by
example and output filter) have all entries `2*u - 1 ∈ {-1, +1}` for uniform
integer draws `u ∈ {0, 1}`; `Conv1DFlipout` computes the same formula with
1-D shapes. -/
theorem flipout_applies_sign_trick
    (conv2 : Tensor4 → Tensor4 → Tensor4) (conv1 : Tensor3 → Tensor3 → Tensor3)
    (L2 : Conv2DState) (L1 : Conv1DState) (a2 a1 : ℚ → ℚ)
    (inputs2 : Tensor4) (inputs1 : Tensor3)
    (rIn2 rOut2 rIn1 rOut1 : Nat → Nat → Nat)
    (hRV2 : L2.kernelIsRV = true) (hb2 : L2.use_bias = true)
    (ha2 : L2.activation = some a2)
    (hRV1 : L1.kernelIsRV = true) (hb1 : L1.use_bias = true)
    (ha1 : L1.activation = some a1)
    (hrIn2 : ∀ b c, rIn2 b c < 2) (hrOut2 : ∀ b f, rOut2 b f < 2)
    (hrIn1 : ∀ b c, rIn1 b c < 2) (hrOut1 : ∀ b f, rOut1 b f < 2) :
    Conv2DFlipout_call conv2 L2 inputs2 rIn2 rOut2 =
        flipoutFormula2D conv2 a2 L2 inputs2 rIn2 rOut2 ∧
      Conv1DFlipout_call conv1 L1 inputs1 rIn1 rOut1 =
        flipoutFormula1D conv1 a1 L1 inputs1 rIn1 rOut1 ∧
      (∀ b c, signVal (rIn2 b c) = -1 ∨ signVal (rIn2 b c) = 1) ∧
      (∀ b f, signVal (rOut2 b f) = -1 ∨ signVal (rOut2 b f) = 1) ∧
      (∀ b c, signVal (rIn1 b c) = -1 ∨ signVal (rIn1 b c) = 1) ∧
      (∀ b f, signVal (rOut1 b f) = -1 ∨ signVal (rOut1 b f) = 1) := by
  refine ⟨?_, ?_, fun b c => signVal_pm_one (hrIn2 b c),
    fun b f => signVal_pm_one (hrOut2 b f),
    fun b c => signVal_pm_one (hrIn1 b c),
    fun b f => signVal_pm_one (hrOut1 b f)⟩
  · funext b h w f
    simp [Conv2DFlipout_call, Conv2DFlipout_applyKernel, flipoutFormula2D,
      hRV2, hb2, ha2, add4, mulSignOut4, biasAdd4, applyActivation4]
  · funext b w f
    simp [Conv1DFlipout_call, Conv1DFlipout_applyKernel, flipoutFormula1D,
      hRV1, hb1, ha1, add3, mulSignOut3, biasAdd3, applyActivation3]

/-- Concrete instantiation discharging the hypotheses of
`flipout_applies_sign_trick` at a specific layer state and input. -/
theorem flipout_applies_sign_trick_witness :
    Conv2DFlipout_call (fun t _ => t)
        ⟨true, some id, true, fun _ _ _ _ => 2, fun _ _ _ _ => 1, fun _ => 3⟩
        (fun _ _ _ _ => 5) (fun _ _ => 1) (fun _ _ => 0) =
      flipoutFormula2D (fun t _ => t) id
        ⟨true, some id, true, fun _ _ _ _ => 2, fun _ _ _ _ => 1, fun _ => 3⟩
        (fun _ _ _ _ => 5) (fun _ _ => 1) (fun _ _ => 0) ∧
    Conv1DFlipout_call (fun t _ => t)
        ⟨true, some id, true, fun _ _ _ => 2, fun _ _ _ => 1, fun _ => 3⟩
        (fun _ _ _ => 5) (fun _ _ => 1) (fun _ _ => 0) =
      flipoutFormula1D (fun t _ => t) id
        ⟨true, some id, true, fun _ _ _ => 2, fun _ _ _ => 1, fun _ => 3⟩
        (fun _ _ _ => 5) (fun _ _ => 1) (fun _ _ => 0) ∧
    (signVal 1 = -1 ∨ signVal 1 = 1) ∧ (signVal 0 = -1 ∨ signVal 0 = 1) := by
  have main := flipout_applies_sign_trick (fun t _ => t) (fun t _ => t)
    ⟨true, some id, true, fun _ _ _ _ => 2, fun _ _ _ _ => 1, fun _ => 3⟩
    ⟨true, some id, true, fun _ _ _ => 2, fun _ _ _ => 1, fun _ => 3⟩
    id id (fun _ _ _ _ => 5) (fun _ _ _ => 5)
    (fun _ _ => 1) (fun _ _ => 0) (fun _ _ => 1) (fun _ _ => 0)
    rfl rfl rfl rfl rfl rfl
    (fun _ _ => by norm_num) (fun _ _ => by norm_num)
    (fun _ _ => by norm_num) (fun _ _ => by norm_num)
  exact ⟨main.1, main.2.1, main.2.2.1 0 0, main.2.2.2.1 0 0⟩

/-- **C9.** When `self.kernel` is not a `RandomVariable`, `Conv2DFlipout.call`
returns exactly `Conv2DReparameterization.call` on the same input, and
likewise for the 1-D layers: the Flipout layers refine the reparameterization
layers on non-random kernels. -/
theorem flipout_refines_reparameterization
    (conv2 : Tensor4 → Tensor4 → Tensor4) (conv1 : Tensor3 → Tensor3 → Tensor3)
    (L2 : Conv2DState) (L1 : Conv1DState)
    (inputs2 : Tensor4) (inputs1 : Tensor3)
    (rIn2 rOut2 rIn1 rOut1 : Nat → Nat → Nat)
    (h2 : L2.kernelIsRV = false) (h1 : L1.kernelIsRV = false) :
    Conv2DFlipout_call conv2 L2 inputs2 rIn2 rOut2 =
        Conv2DReparameterization_call conv2 L2 inputs2 ∧
      Conv1DFlipout_call conv1 L1 inputs1 rIn1 rOut1 =
        Conv1DReparameterization_call conv1 L1 inputs1 := by
  constructor
  · simp [Conv2DFlipout_call, h2]
  · simp [Conv1DFlipout_call, h1]

/-- Concrete instantiation discharging the hypotheses of
`flipout_refines_reparameterization`. -/
theorem flipout_refines_reparameterization_witness :
    Conv2DFlipout_call (fun t _ => t)
        ⟨true, none, false, fun _ _ _ _ => 2, fun _ _ _ _ => 1, fun _ => 3⟩
        (fun _ _ _ _ => 5) (fun _ _ => 1) (fun _ _ => 0) =
      Conv2DReparameterization_call (fun t _ => t)
        ⟨true, none, false, fun _ _ _ _ => 2, fun _ _ _ _ => 1, fun _ => 3⟩
        (fun _ _ _ _ => 5) ∧
    Conv1DFlipout_call (fun t _ => t)
        ⟨true, none, false, fun _ _ _ => 2, fun _ _ _ => 1, fun _ => 3⟩
        (fun _ _ _ => 5) (fun _ _ => 1) (fun _ _ => 0) =
      Conv1DReparameterization_call (fun t _ => t)
        ⟨true, none, false, fun _ _ _ => 2, fun _ _ _ => 1, fun _ => 3⟩
        (fun _ _ _ => 5) := by
  exact flipout_refines_reparameterization (fun t _ => t) (fun t _ => t)
    ⟨true, none, false, fun _ _ _ _ => 2, fun _ _ _ _ => 1, fun _ => 3⟩
    ⟨true, none, false, fun _ _ _ => 2, fun _ _ _ => 1, fun _ => 3⟩
    (fun _ _ _ _ => 5) (fun _ _ _ => 5)
    (fun _ _ => 1) (fun _ _ => 0) (fun _ _ => 1) (fun _ _ => 0) rfl rfl

/-! ### Conditional convolution (`CondConv2D`, `DepthwiseCondConv2D`)

`call` splits the batch into single examples (`tf.split`), applies an
example-dependent convolution to each, and concatenates the results in order
(`tf.concat`).  This per-example loop with its running index is embedded as
an index-passing map over the list of examples. -/

/-- Indexed map: `mapFrom f l n` applies `f (n + position)` to each element,
mirroring the `for input_tensor, kernel in zip(inputs, kernels)` loop over the
split batch. -/
def mapFrom {α β : Type} (f : Nat → α → β) : List α → Nat → List β
  | [], _ => []
  | x :: xs, n => f n x :: mapFrom f xs (n + 1)

theorem length_mapFrom {α β : Type} (f : Nat → α → β) (l : List α) (n : Nat) :
    (mapFrom f l n).length = l.length := by
  induction l generalizing n with
  | nil => rfl
  | cons x xs ih => simp [mapFrom, ih]

theorem getElem?_mapFrom {α β : Type} (f : Nat → α → β) (l : List α)
    (n i : Nat) : (mapFrom f l n)[i]? = (l[i]?).map (fun x => f (n + i) x) := by
  induction l generalizing n i with
  | nil => simp [mapFrom]
  | cons x xs ih =>
    cases i with
    | zero => simp [mapFrom]
    | succ j =>
      simp only [mapFrom, List.getElem?_cons_succ, ih, ← Nat.add_assoc,
        Nat.add_right_comm n 1 j]

/-- One example of a 2-D batch: a (height, width, channel) tensor. -/
def Example2D : Type := Nat → Nat → Nat → ℚ

/-- `tf.reshape(kernel, self.kernel_shape)` for
`kernel_shape = kernel_size + (input_dim, filters)`: row-major reindexing of
the flat per-example kernel of `kernel_num_params` entries. -/
def reshapeKernel2D (kw cin filters : Nat) (flat : Nat → ℚ) : Tensor4 :=
  fun h w ci f => flat (((h * kw + w) * cin + ci) * filters + f)

/-- Row `i` of `tf.matmul(routing_weights, M)` for `M : [num_experts, p]`:
the routing-weighted mixture of expert rows. -/
def matmulRow (numExperts : Nat) (r : Nat → Nat → ℚ) (M : Nat → Nat → ℚ)
    (i p : Nat) : ℚ :=
  ∑ e ∈ Finset.range numExperts, r i e * M e p

/-- `tf.nn.bias_add(output, bias, data_format='NHWC')` on one example. -/
def biasAddEx (o : Example2D) (bias : Nat → ℚ) : Example2D :=
  fun h w f => o h w f + bias f

/-- Optional elementwise activation on one example. -/
def applyActivationEx (a : Option (ℚ → ℚ)) (o : Example2D) : Example2D :=
  match a with
  | none => o
  | some f => fun h w c => f (o h w c)

/-- State of a built `CondConv2D` layer: `condconv_kernel` has shape
`[num_experts, kernel_num_params]` and `condconv_bias` shape
`[num_experts, filters]`; `kw`/`cin` record the kernel width and input
channel count entering `kernel_shape`. -/
structure CondConv2DState where
  filters : Nat
  num_experts : Nat
  use_bias : Bool
  activation : Option (ℚ → ℚ)
  kw : Nat
  cin : Nat
  condconv_kernel : Nat → Nat → ℚ
  condconv_bias : Nat → Nat → ℚ

/-- `CondConv2D.call`: compute per-example kernels
`tf.matmul(routing_weights, self.condconv_kernel)`, convolve each example
with its reshaped kernel, concatenate, then add the per-example mixed bias
and apply the activation.  The host convolution op on a single example is
the parameter `convEx`. -/
def CondConv2D_call (S : CondConv2DState)
    (convEx : Example2D → Tensor4 → Example2D)
    (inputs : List Example2D) (r : Nat → Nat → ℚ) : List Example2D :=
  let outs := mapFrom (fun i x =>
    convEx x (reshapeKernel2D S.kw S.cin S.filters
      (matmulRow S.num_experts r S.condconv_kernel i))) inputs 0
  let outs := if S.use_bias then
      mapFrom (fun i o =>
        biasAddEx o (matmulRow S.num_experts r S.condconv_bias i)) outs 0
    else outs
  match S.activation with
  | none => outs
  | some a => outs.map (applyActivationEx (some a))

/-- State of a built `DepthwiseCondConv2D` layer:
`depthwise_condconv_kernel : [num_experts, kh*kw*cin*depth_multiplier]`,
`condconv_bias : [num_experts, cin*depth_multiplier]`. -/
structure DepthwiseCondConv2DState where
  depth_multiplier : Nat
  num_experts : Nat
  use_bias : Bool
  activation : Option (ℚ → ℚ)
  kw : Nat
  cin : Nat
  depthwise_condconv_kernel : Nat → Nat → ℚ
  condconv_bias : Nat → Nat → ℚ

/-- `DepthwiseCondConv2D.call`: identical structure to `CondConv2D.call` with
depthwise kernels of shape `(kh, kw, cin, depth_multiplier)` and the
depthwise convolution op `dwConvEx`. -/
def DepthwiseCondConv2D_call (S : DepthwiseCondConv2DState)
    (dwConvEx : Example2D → Tensor4 → Example2D)
    (inputs : List Example2D) (r : Nat → Nat → ℚ) : List Example2D :=
  let outs := mapFrom (fun i x =>
    dwConvEx x (reshapeKernel2D S.kw S.cin S.depth_multiplier
      (matmulRow S.num_experts r S.depthwise_condconv_kernel i))) inputs 0
  let outs := if S.use_bias then
      mapFrom (fun i o =>
        biasAddEx o (matmulRow S.num_experts r S.condconv_bias i)) outs 0
    else outs
  match S.activation with
  | none => outs
  | some a => outs.map (applyActivationEx (some a))

/-- **C2.** For a batch of `n` examples and routing weights of shape
`[n, num_experts]`, `CondConv2D.call` convolves example `i` with the kernel
`reshape(Σ_e routing_weights[i,e] * condconv_kernel[e])` and, when `use_bias`,
adds the bias `Σ_e routing_weights[i,e] * condconv_bias[e]` to example `i`'s
output; the result is the order-preserving concatenation of the `n`
per-example outputs (same length, example `i` of the output comes from
example `i` of the input).  `DepthwiseCondConv2D` computes the same
per-example expert mixture with depthwise kernels. -/
theorem condconv_mixes_expert_kernels (S : CondConv2DState)
    (D : DepthwiseCondConv2DState)
    (convEx dwConvEx : Example2D → Tensor4 → Example2D)
    (inputs dwInputs : List Example2D) (r rd : Nat → Nat → ℚ)
    (hb : S.use_bias = true) (hbd : D.use_bias = true) :
    (CondConv2D_call S convEx inputs r).length = inputs.length ∧
      (∀ i x, inputs[i]? = some x →
        (CondConv2D_call S convEx inputs r)[i]? = some
          (applyActivationEx S.activation
            (biasAddEx
              (convEx x (reshapeKernel2D S.kw S.cin S.filters
                (matmulRow S.num_experts r S.condconv_kernel i)))
              (matmulRow S.num_experts r S.condconv_bias i)))) ∧
      (DepthwiseCondConv2D_call D dwConvEx dwInputs rd).length =
        dwInputs.length ∧
      (∀ i x, dwInputs[i]? = some x →
        (DepthwiseCondConv2D_call D dwConvEx dwInputs rd)[i]? = some
          (applyActivationEx D.activation
            (biasAddEx
              (dwConvEx x (reshapeKernel2D D.kw D.cin D.depth_multiplier
                (matmulRow D.num_experts rd D.depthwise_condconv_kernel i)))
              (matmulRow D.num_experts rd D.condconv_bias i)))) := by
  refine ⟨?_, ?_, ?_, ?_⟩
  · cases ha : S.activation with
    | none => simp [CondConv2D_call, hb, ha, length_mapFrom]
    | some a => simp [CondConv2D_call, hb, ha, length_mapFrom]
  · intro i x hx
    cases ha : S.activation with
    | none =>
      simp [CondConv2D_call, hb, ha, getElem?_mapFrom, hx, applyActivationEx]
    | some a =>
      simp [CondConv2D_call, hb, ha, List.getElem?_map, getElem?_mapFrom, hx,
        applyActivationEx]
  · cases ha : D.activation with
    | none => simp [DepthwiseCondConv2D_call, hbd, ha, length_mapFrom]
    | some a => simp [DepthwiseCondConv2D_call, hbd, ha, length_mapFrom]
  · intro i x hx
    cases ha : D.activation with
    | none =>
      simp [DepthwiseCondConv2D_call, hbd, ha, getElem?_mapFrom, hx,
        applyActivationEx]
    | some a =>
      simp [DepthwiseCondConv2D_call, hbd, ha, List.getElem?_map,
        getElem?_mapFrom, hx, applyActivationEx]

/-- Concrete instantiation discharging the hypotheses of
`condconv_mixes_expert_kernels`: one expert, a one-example batch. -/
theorem condconv_mixes_expert_kernels_witness :
    (CondConv2D_call ⟨1, 1, true, none, 1, 1, fun _ _ => 1, fun _ _ => 1⟩
        (fun x _ => x) [fun _ _ _ => 2] (fun _ _ => 1)).length = 1 ∧
      (CondConv2D_call ⟨1, 1, true, none, 1, 1, fun _ _ => 1, fun _ _ => 1⟩
          (fun x _ => x) [fun _ _ _ => 2] (fun _ _ => 1))[0]? = some
        (applyActivationEx none
          (biasAddEx
            ((fun (x : Example2D) (_ : Tensor4) => x) (fun _ _ _ => 2)
              (reshapeKernel2D 1 1 1 (matmulRow 1 (fun _ _ => 1)
                (fun _ _ => 1) 0)))
            (matmulRow 1 (fun _ _ => 1) (fun _ _ => 1) 0))) := by
  have main := condconv_mixes_expert_kernels
    ⟨1, 1, true, none, 1, 1, fun _ _ => 1, fun _ _ => 1⟩
    ⟨1, 1, true, none, 1, 1, fun _ _ => 1, fun _ _ => 1⟩
    (fun x _ => x) (fun x _ => x)
    [fun _ _ _ => 2] [fun _ _ _ => 2] (fun _ _ => 1) (fun _ _ => 1) rfl rfl
  exact ⟨main.1, main.2.1 0 (fun _ _ _ => 2) rfl⟩

/-! ### Batch ensemble (`Conv2DBatchEnsemble`, `Conv1DBatchEnsemble`)

`call` tiles the `[ensemble_size, dim]` fast weights along columns and
reshapes to `[batch_size, dim]`, so consecutive blocks of
`examples_per_model = batch_size // ensemble_size` rows share one member's
weights.  The base convolution acts example by example, so the batch is a
`Nat`-indexed family of examples and the shared-kernel convolution is a
single per-example function `convEx`. -/

/-- `tf.tile(A, [1, examples_per_model])` on an `[E, D]` matrix: each row is
the original row repeated, entry `(k, m) = A k (m % D)`. -/
def tileCols (A : Nat → Nat → ℚ) (D : Nat) : Nat → Nat → ℚ :=
  fun k m => A k (m % D)

/-- `tf.reshape(T, [batch_size, D])` of an `[E, D * epm]` matrix, row-major:
entry `(j, d)` reads flat position `j * D + d`. -/
def reshapeRows (T : Nat → Nat → ℚ) (D epm : Nat) : Nat → Nat → ℚ :=
  fun j d => T ((j * D + d) / (D * epm)) ((j * D + d) % (D * epm))

theorem tile_reshape_row (A : Nat → Nat → ℚ) (D epm j d : Nat)
    (hd : d < D) (he : 0 < epm) :
    reshapeRows (tileCols A D) D epm j d = A (j / epm) d := by
  have hM : 0 < D * epm :=
    Nat.mul_pos (lt_of_le_of_lt (Nat.zero_le d) hd) he
  have hr : j % epm < epm := Nat.mod_lt _ he
  have key : j * D + d = (j % epm * D + d) + j / epm * (D * epm) := by
    conv_lhs => rw [← Nat.div_add_mod j epm]
    ring
  have hs : j % epm * D + d < D * epm := by
    calc j % epm * D + d < j % epm * D + D := by omega
      _ = (j % epm + 1) * D := by ring
      _ ≤ epm * D := Nat.mul_le_mul_right D hr
      _ = D * epm := Nat.mul_comm _ _
  have hdiv : (j * D + d) / (D * epm) = j / epm := by
    rw [key, Nat.add_mul_div_right _ _ hM, Nat.div_eq_of_lt hs, Nat.zero_add]
  have hmod : (j * D + d) % (D * epm) = j % epm * D + d := by
    rw [key, Nat.add_mul_mod_self_right, Nat.mod_eq_of_lt hs]
  simp only [reshapeRows, tileCols, hdiv, hmod]
  rw [Nat.mul_comm (j % epm) D, Nat.mul_add_mod, Nat.mod_eq_of_lt hd]

/-- One example of a 1-D batch: a (width, channel) tensor. -/
def Example1D : Type := Nat → Nat → ℚ

/-- State of a built `Conv2DBatchEnsemble` layer: the single shared base
kernel is folded into the per-example base convolution `convEx` passed to
`call`; `alpha : [ensemble_size, input_dim]`, `gamma` and `ensemble_bias`
`: [ensemble_size, filters]`. -/
structure Conv2DBatchEnsembleState where
  filters : Nat
  input_dim : Nat
  rank : Nat
  ensemble_size : Nat
  use_ensemble_bias : Bool
  ensemble_activation : Option (ℚ → ℚ)
  alpha : Nat → Nat → ℚ
  gamma : Nat → Nat → ℚ
  ensemble_bias : Nat → Nat → ℚ

/-- State of a built `Conv1DBatchEnsemble` layer. -/
structure Conv1DBatchEnsembleState where
  filters : Nat
  input_dim : Nat
  ensemble_size : Nat
  use_ensemble_bias : Bool
  ensemble_activation : Option (ℚ → ℚ)
  alpha : Nat → Nat → ℚ
  gamma : Nat → Nat → ℚ
  ensemble_bias : Nat → Nat → ℚ

/-- `Conv2DBatchEnsemble.call`, rank-1 branch (`self.rank == 1`,
channels_last): tile-and-reshape `alpha`, `gamma` (and `ensemble_bias`) to
`[batch_size, dim]`, expand over the spatial axes, and compute
`super().call(inputs * alpha) * gamma (+ bias)` followed by the ensemble
activation.  `convEx` is the shared-kernel base convolution on one example. -/
def Conv2DBatchEnsemble_call (S : Conv2DBatchEnsembleState)
    (convEx : Example2D → Example2D) (inputs : Nat → Example2D) (B : Nat) :
    Nat → Example2D :=
  let epm := B / S.ensemble_size
  let alpha := reshapeRows (tileCols S.alpha S.input_dim) S.input_dim epm
  let gamma := reshapeRows (tileCols S.gamma S.filters) S.filters epm
  let outputs : Nat → Example2D := fun b h w f =>
    convEx (fun x y c => inputs b x y c * alpha b c) h w f * gamma b f
  let outputs : Nat → Example2D :=
    if S.use_ensemble_bias then
      fun b h w f => outputs b h w f +
        reshapeRows (tileCols S.ensemble_bias S.filters) S.filters epm b f
    else outputs
  fun b => applyActivationEx S.ensemble_activation (outputs b)

/-- Optional elementwise activation on one 1-D example. -/
def applyActivationEx1 (a : Option (ℚ → ℚ)) (o : Example1D) : Example1D :=
  match a with
  | none => o
  | some f => fun w c => f (o w c)

/-- `Conv1DBatchEnsemble.call` (channels_last): same fast-weight broadcasting
with 1-D shapes. -/
def Conv1DBatchEnsemble_call (S : Conv1DBatchEnsembleState)
    (convEx : Example1D → Example1D) (inputs : Nat → Example1D) (B : Nat) :
    Nat → Example1D :=
  let epm := B / S.ensemble_size
  let alpha := reshapeRows (tileCols S.alpha S.input_dim) S.input_dim epm
  let gamma := reshapeRows (tileCols S.gamma S.filters) S.filters epm
  let outputs : Nat → Example1D := fun b w f =>
    convEx (fun y c => inputs b y c * alpha b c) w f * gamma b f
  let outputs : Nat → Example1D :=
    if S.use_ensemble_bias then
      fun b w f => outputs b w f +
        reshapeRows (tileCols S.ensemble_bias S.filters) S.filters epm b f
    else outputs
  fun b => applyActivationEx1 S.ensemble_activation (outputs b)

/-- **C5.** For a batch whose size is a multiple of `ensemble_size` (so
`examples_per_model = batch_size // ensemble_size` is positive),
`Conv2DBatchEnsemble` with `rank = 1` computes
`conv(inputs * alpha) * gamma` with the single shared base kernel (`convEx`
is one function used for every member), adds the member's `ensemble_bias`
row when `use_bias`, and applies the activation; example `b` receives the
`alpha`, `gamma` and bias rows of member `b / examples_per_model`, so member
`k` covers examples `k*epm` through `(k+1)*epm - 1`.  `Conv1DBatchEnsemble`
behaves the same with 1-D shapes.  The extensionality hypotheses `hconv2`,
`hconv1` state that the base convolution reads only the declared
`input_dim` channels of an example. -/
theorem batch_ensemble_member_blocks
    (S2 : Conv2DBatchEnsembleState) (S1 : Conv1DBatchEnsembleState)
    (convEx2 : Example2D → Example2D) (convEx1 : Example1D → Example1D)
    (inputs2 : Nat → Example2D) (inputs1 : Nat → Example1D)
    (B2 B1 : Nat) (a2 a1 : ℚ → ℚ)
    (hepm2 : 0 < B2 / S2.ensemble_size) (hepm1 : 0 < B1 / S1.ensemble_size)
    (hb2 : S2.use_ensemble_bias = true) (hb1 : S1.use_ensemble_bias = true)
    (ha2 : S2.ensemble_activation = some a2)
    (ha1 : S1.ensemble_activation = some a1)
    (hconv2 : ∀ x y : Example2D,
      (∀ h w c, c < S2.input_dim → x h w c = y h w c) → convEx2 x = convEx2 y)
    (hconv1 : ∀ x y : Example1D,
      (∀ w c, c < S1.input_dim → x w c = y w c) → convEx1 x = convEx1 y) :
    (∀ b h w f, f < S2.filters →
      Conv2DBatchEnsemble_call S2 convEx2 inputs2 B2 b h w f =
        a2 (convEx2 (fun x y c => inputs2 b x y c *
              S2.alpha (b / (B2 / S2.ensemble_size)) c) h w f *
            S2.gamma (b / (B2 / S2.ensemble_size)) f +
            S2.ensemble_bias (b / (B2 / S2.ensemble_size)) f)) ∧
    (∀ k j, k * (B2 / S2.ensemble_size) ≤ j →
        j < (k + 1) * (B2 / S2.ensemble_size) →
        j / (B2 / S2.ensemble_size) = k) ∧
    (∀ b w f, f < S1.filters →
      Conv1DBatchEnsemble_call S1 convEx1 inputs1 B1 b w f =
        a1 (convEx1 (fun y c => inputs1 b y c *
              S1.alpha (b / (B1 / S1.ensemble_size)) c) w f *
            S1.gamma (b / (B1 / S1.ensemble_size)) f +
            S1.ensemble_bias (b / (B1 / S1.ensemble_size)) f)) := by
  refine ⟨?_, fun k j h1 h2 => Nat.div_eq_of_lt_le h1 h2, ?_⟩
  · intro b h w f hf
    have hgamma := tile_reshape_row S2.gamma S2.filters
      (B2 / S2.ensemble_size) b f hf hepm2
    have hbias := tile_reshape_row S2.ensemble_bias S2.filters
      (B2 / S2.ensemble_size) b f hf hepm2
    have halpha : convEx2 (fun x y c => inputs2 b x y c *
        reshapeRows (tileCols S2.alpha S2.input_dim) S2.input_dim
          (B2 / S2.ensemble_size) b c) =
        convEx2 (fun x y c => inputs2 b x y c *
          S2.alpha (b / (B2 / S2.ensemble_size)) c) := by
      apply hconv2
      intro x y c hc
      rw [tile_reshape_row S2.alpha S2.input_dim (B2 / S2.ensemble_size) b c
        hc hepm2]
    simp only [Conv2DBatchEnsemble_call, hb2, ha2, if_true,
      applyActivationEx, halpha, hgamma, hbias]
  · intro b w f hf
    have hgamma := tile_reshape_row S1.gamma S1.filters
      (B1 / S1.ensemble_size) b f hf hepm1
    have hbias := tile_reshape_row S1.ensemble_bias S1.filters
      (B1 / S1.ensemble_size) b f hf hepm1
    have halpha : convEx1 (fun y c => inputs1 b y c *
        reshapeRows (tileCols S1.alpha S1.input_dim) S1.input_dim
          (B1 / S1.ensemble_size) b c) =
        convEx1 (fun y c => inputs1 b y c *
          S1.alpha (b / (B1 / S1.ensemble_size)) c) := by
      apply hconv1
      intro y c hc
      rw [tile_reshape_row S1.alpha S1.input_dim (B1 / S1.ensemble_size) b c
        hc hepm1]
    simp only [Conv1DBatchEnsemble_call, hb1, ha1, if_true,
      applyActivationEx1, halpha, hgamma, hbias]

/-- Concrete instantiation discharging the hypotheses of
`batch_ensemble_member_blocks`: one member, one example, constant weights. -/
theorem batch_ensemble_member_blocks_witness :
    Conv2DBatchEnsemble_call
        ⟨1, 1, 1, 1, true, some id, fun _ _ => 2, fun _ _ => 3, fun _ _ => 4⟩
        (fun x h w _ => x h w 0) (fun _ _ _ _ => 5) 1 0 0 0 0 = 34 ∧
      Conv1DBatchEnsemble_call
        ⟨1, 1, 1, true, some id, fun _ _ => 2, fun _ _ => 3, fun _ _ => 4⟩
        (fun x w _ => x w 0) (fun _ _ _ => 5) 1 0 0 0 = 34 := by
  have main := batch_ensemble_member_blocks
    ⟨1, 1, 1, 1, true, some id, fun _ _ => 2, fun _ _ => 3, fun _ _ => 4⟩
    ⟨1, 1, 1, true, some id, fun _ _ => 2, fun _ _ => 3, fun _ _ => 4⟩
    (fun x h w _ => x h w 0) (fun x w _ => x w 0)
    (fun _ _ _ _ => 5) (fun _ _ _ => 5) 1 1 id id
    (by norm_num) (by norm_num) rfl rfl rfl rfl
    (fun x y hxy => by
      funext h w f
      exact hxy h w 0 (by norm_num))
    (fun x y hxy => by
      funext w f
      exact hxy w 0 (by norm_num))
  constructor
  · have h := main.1 0 0 0 0 (by norm_num)
    rw [h]
    norm_num
  · have h := main.2.2 0 0 0 (by norm_num)
    rw [h]
    norm_num

/-! ### Variational dropout (`Conv2DVariationalDropout`)

The host framework's scalar `log`, `exp` and `sqrt` are abstract parameters;
`tf.clip_by_value` (`minimum` then `maximum`) and the moment arithmetic
written in `dropped_inputs` are embedded concretely.  `training=None`
resolves to the backend learning phase; `utils.smart_constant_value` /
`tf.cond` both select the same branch once the flag's value is fixed, so the
call takes the resolved flag. -/

/-- The host framework's elementwise `log`, `exp`, `sqrt`. -/
structure MathOps where
  log : ℚ → ℚ
  exp : ℚ → ℚ
  sqrt : ℚ → ℚ

/-- `tf.clip_by_value(t, lo, hi)`: `minimum` with the upper bound, then
`maximum` with the lower bound. -/
def clipQ (x lo hi : ℚ) : ℚ := max (min x hi) lo

/-- Pointwise map over a 4-D tensor. -/
def map4 (f : ℚ → ℚ) (t : Tensor4) : Tensor4 := fun a b c d => f (t a b c d)

/-- State of a `Conv2DVariationalDropout` layer at `call` time:
`kernelVariance` is `self.kernel.distribution.variance()`. -/
structure Conv2DVarDropoutState where
  use_bias : Bool
  activation : Option (ℚ → ℚ)
  kernelIsRV : Bool
  kernel : Tensor4
  kernelMean : Tensor4
  kernelVariance : Tensor4
  bias : Nat → ℚ

/-- Forgetting the variance gives the parent reparameterization state. -/
def VDtoConvState (S : Conv2DVarDropoutState) : Conv2DState :=
  ⟨S.use_bias, S.activation, S.kernelIsRV, S.kernel, S.kernelMean, S.bias⟩

/-- Result of `Conv2DVariationalDropout.call`: a plain tensor (base path), a
`Normal` random variable, or an activation applied to a `Normal`. -/
inductive VDOutput : Type
  | tensor (t : Tensor4)
  | normal (loc scale : Tensor4)
  | transformedNormal (f : ℚ → ℚ) (loc scale : Tensor4)

/-- `dropped_inputs` of `Conv2DVariationalDropout.call`: clip the dropout
rate `log_alpha = log_variance - log(mean^2 + eps)` to `[-8, 8]`,
reconstitute `log_variance`, and return
`Normal(conv(inputs, mean) (+ bias), sqrt(conv(inputs^2, exp(log_variance)) + eps))`. -/
def VD_droppedInputs (ops : MathOps) (eps : ℚ)
    (conv : Tensor4 → Tensor4 → Tensor4) (S : Conv2DVarDropoutState)
    (inputs : Tensor4) : VDOutput :=
  let mean := S.kernelMean
  let log_variance := map4 ops.log S.kernelVariance
  let log_alpha : Tensor4 := fun a b c d =>
    clipQ (log_variance a b c d - ops.log (mean a b c d * mean a b c d + eps))
      (-8) 8
  let log_variance2 : Tensor4 := fun a b c d =>
    log_alpha a b c d + ops.log (mean a b c d * mean a b c d + eps)
  let means := conv inputs mean
  let stddevs : Tensor4 := fun b h w f =>
    ops.sqrt ((conv (map4 (fun q => q * q) inputs)
      (map4 ops.exp log_variance2)) b h w f + eps)
  let means := if S.use_bias then biasAdd4 means S.bias else means
  match S.activation with
  | none => VDOutput.normal means stddevs
  | some f => VDOutput.transformedNormal f means stddevs

/-- `Conv2DVariationalDropout.call`: parent call on non-random kernels;
otherwise `dropped_inputs` when the (resolved) training flag is true and the
parent reparameterization call when it is false. -/
def Conv2DVariationalDropout_call (ops : MathOps) (eps : ℚ)
    (conv : Tensor4 → Tensor4 → Tensor4) (S : Conv2DVarDropoutState)
    (inputs : Tensor4) (training : Option Bool) (learning_phase : Bool) :
    VDOutput :=
  if S.kernelIsRV = false then
    VDOutput.tensor (Conv2DReparameterization_call conv (VDtoConvState S)
      inputs)
  else if training.getD learning_phase then
    VD_droppedInputs ops eps conv S inputs
  else
    VDOutput.tensor (Conv2DReparameterization_call conv (VDtoConvState S)
      inputs)

/-- The claimed moments of the variational-dropout forward pass. -/
def vdSpecLoc (conv : Tensor4 → Tensor4 → Tensor4)
    (S : Conv2DVarDropoutState) (inputs : Tensor4) : Tensor4 :=
  fun b h w f => conv inputs S.kernelMean b h w f + S.bias f

/-- The claimed stddev: `sqrt(conv(inputs^2, exp(log_variance)) + eps)` with
`log_variance` reconstituted from the clipped `log_alpha`. -/
def vdSpecScale (ops : MathOps) (eps : ℚ)
    (conv : Tensor4 → Tensor4 → Tensor4) (S : Conv2DVarDropoutState)
    (inputs : Tensor4) : Tensor4 :=
  fun b h w f =>
    ops.sqrt ((conv (map4 (fun q => q * q) inputs)
      (map4 ops.exp (fun a x y z =>
        clipQ (ops.log (S.kernelVariance a x y z) -
            ops.log (S.kernelMean a x y z * S.kernelMean a x y z + eps))
          (-8) 8 +
        ops.log (S.kernelMean a x y z * S.kernelMean a x y z + eps))))
      b h w f + eps)

/-- **C6.** When the kernel is a `RandomVariable` and the training flag
resolves to true, `Conv2DVariationalDropout.call` returns a `Normal` random
variable with mean `conv(inputs, mean(kernel)) + bias` and stddev
`sqrt(conv(inputs^2, exp(log_variance)) + eps)`, where
`log_alpha = log_variance - log(mean^2 + eps)` is clipped to `[-8, 8]`
before `log_variance` is reconstituted; when the flag resolves to false it
returns the base reparameterization forward pass. -/
theorem variational_dropout_moments (ops : MathOps) (eps : ℚ)
    (conv : Tensor4 → Tensor4 → Tensor4) (S : Conv2DVarDropoutState)
    (inputs : Tensor4) (tr1 tr2 : Option Bool) (lp : Bool)
    (hRV : S.kernelIsRV = true) (hb : S.use_bias = true)
    (ha : S.activation = none)
    (htr1 : tr1.getD lp = true) (htr2 : tr2.getD lp = false) :
    Conv2DVariationalDropout_call ops eps conv S inputs tr1 lp =
        VDOutput.normal (vdSpecLoc conv S inputs)
          (vdSpecScale ops eps conv S inputs) ∧
      Conv2DVariationalDropout_call ops eps conv S inputs tr2 lp =
        VDOutput.tensor
          (Conv2DReparameterization_call conv (VDtoConvState S) inputs) ∧
      (∀ x : ℚ, -8 ≤ clipQ x (-8) 8 ∧ clipQ x (-8) 8 ≤ 8) := by
  refine ⟨?_, ?_, ?_⟩
  · simp only [Conv2DVariationalDropout_call, hRV, htr1, VD_droppedInputs,
      hb, ha, if_true, Bool.true_eq_false, if_false]
    congr 1
  · simp only [Conv2DVariationalDropout_call, hRV, htr2,
      Bool.true_eq_false, if_false, Bool.false_eq_true]
  · intro x
    constructor
    · exact le_max_right _ _
    · exact max_le (min_le_right _ _) (by norm_num)

/-- Concrete instantiation discharging the hypotheses of
`variational_dropout_moments`, with the loc/scale evaluated at one index. -/
theorem variational_dropout_moments_witness :
    Conv2DVariationalDropout_call ⟨id, id, id⟩ 0 (fun t _ => t)
        ⟨true, none, true, fun _ _ _ _ => 1, fun _ _ _ _ => 1,
          fun _ _ _ _ => 1, fun _ => 1⟩
        (fun _ _ _ _ => 5) (some true) false =
      VDOutput.normal
        (vdSpecLoc (fun t _ => t)
          ⟨true, none, true, fun _ _ _ _ => 1, fun _ _ _ _ => 1,
            fun _ _ _ _ => 1, fun _ => 1⟩ (fun _ _ _ _ => 5))
        (vdSpecScale ⟨id, id, id⟩ 0 (fun t _ => t)
          ⟨true, none, true, fun _ _ _ _ => 1, fun _ _ _ _ => 1,
            fun _ _ _ _ => 1, fun _ => 1⟩ (fun _ _ _ _ => 5)) ∧
    Conv2DVariationalDropout_call ⟨id, id, id⟩ 0 (fun t _ => t)
        ⟨true, none, true, fun _ _ _ _ => 1, fun _ _ _ _ => 1,
          fun _ _ _ _ => 1, fun _ => 1⟩
        (fun _ _ _ _ => 5) (some false) false =
      VDOutput.tensor
        (Conv2DReparameterization_call (fun t _ => t)
          (VDtoConvState ⟨true, none, true, fun _ _ _ _ => 1,
            fun _ _ _ _ => 1, fun _ _ _ _ => 1, fun _ => 1⟩)
          (fun _ _ _ _ => 5)) ∧
    (-8 : ℚ) ≤ clipQ 100 (-8) 8 ∧ clipQ 100 (-8) 8 ≤ 8 := by
  have main := variational_dropout_moments ⟨id, id, id⟩ 0 (fun t _ => t)
    ⟨true, none, true, fun _ _ _ _ => 1, fun _ _ _ _ => 1,
      fun _ _ _ _ => 1, fun _ => 1⟩
    (fun _ _ _ _ => 5) (some true) (some false) false
    rfl rfl rfl rfl rfl
  exact ⟨main.1, main.2.1, (main.2.2 100).1, (main.2.2 100).2⟩

/-! ### Rank-1 Bayesian layers (`Conv2DRank1`, `Conv1DRank1`)

When the `alpha`/`gamma` initializer is itself a layer, `call` draws
`examples_per_model` samples of the `[ensemble_size, dim]` factor from its
distribution, clips them to the perturbation bounds, transposes
`[epm, E, dim]` to `[E, epm, dim]` and reshapes to `[batch_size, dim]`;
otherwise it tiles the stored factor as in the batch-ensemble layer. -/

/-- `tf.transpose(t, [1, 0, 2])` on an `[epm, E, D]` sample tensor. -/
def transpose102 (t : Nat → Nat → Nat → ℚ) : Nat → Nat → Nat → ℚ :=
  fun e s d => t s e d

/-- `tf.reshape(t, [batch_size, D])` of an `[E, epm, D]` tensor, row-major:
entry `(j, d)` reads flat position `j * D + d`. -/
def reshape3to2 (t : Nat → Nat → Nat → ℚ) (epm D : Nat) : Nat → Nat → ℚ :=
  fun j d => t ((j * D + d) / (epm * D)) ((j * D + d) % (epm * D) / D)
    ((j * D + d) % D)

theorem reshape3to2_eval (t : Nat → Nat → Nat → ℚ) (epm D j d : Nat)
    (hd : d < D) (he : 0 < epm) :
    reshape3to2 t epm D j d = t (j / epm) (j % epm) d := by
  have hD : 0 < D := lt_of_le_of_lt (Nat.zero_le d) hd
  have key : j * D + d = (j % epm * D + d) + j / epm * (epm * D) := by
    conv_lhs => rw [← Nat.div_add_mod j epm]
    ring
  have hs : j % epm * D + d < epm * D := by
    have hr : j % epm < epm := Nat.mod_lt _ he
    calc j % epm * D + d < j % epm * D + D := by omega
      _ = (j % epm + 1) * D := by ring
      _ ≤ epm * D := Nat.mul_le_mul_right D hr
  have hdiv : (j * D + d) / (epm * D) = j / epm := by
    rw [key, Nat.add_mul_div_right _ _ (Nat.mul_pos he hD),
      Nat.div_eq_of_lt hs, Nat.zero_add]
  have hmod : (j * D + d) % (epm * D) = j % epm * D + d := by
    rw [key, Nat.add_mul_mod_self_right, Nat.mod_eq_of_lt hs]
  have h2 : (j % epm * D + d) / D = j % epm := by
    rw [Nat.mul_comm (j % epm) D, Nat.mul_add_div hD,
      Nat.div_eq_of_lt hd, Nat.add_zero]
  have h3 : (j * D + d) % D = d := by
    rw [Nat.mul_comm j D, Nat.mul_add_mod, Nat.mod_eq_of_lt hd]
  simp only [reshape3to2, hdiv, hmod, h2, h3]

theorem clipQ_mem {lo hi : ℚ} (x : ℚ) (h : lo ≤ hi) :
    lo ≤ clipQ x lo hi ∧ clipQ x lo hi ≤ hi :=
  ⟨le_max_right _ _, max_le (min_le_right _ _) h⟩

/-- The per-example factor rows produced by the sampling branch
(`isinstance(self.alpha_initializer, tf.keras.layers.Layer)`):
clip the `[epm, E, D]` draw, transpose to `[E, epm, D]`, reshape to
`[batch_size, D]`. -/
def rank1SampledRows (sample : Nat → Nat → Nat → ℚ) (lo hi : ℚ)
    (epm D : Nat) : Nat → Nat → ℚ :=
  reshape3to2 (transpose102 (fun s e d => clipQ (sample s e d) lo hi)) epm D

/-- The per-example factor rows produced by the tiling branch
(`tf.tile(self.alpha, [1, examples_per_model])` then reshape). -/
def rank1TiledRows (A : Nat → Nat → ℚ) (D epm : Nat) : Nat → Nat → ℚ :=
  reshapeRows (tileCols A D) D epm

/-- State of a built `Conv2DRank1` layer. -/
structure Conv2DRank1State where
  filters : Nat
  input_dim : Nat
  ensemble_size : Nat
  use_ensemble_bias : Bool
  use_additive_perturbation : Bool
  min_perturbation_value : ℚ
  max_perturbation_value : ℚ
  ensemble_activation : Option (ℚ → ℚ)
  alpha : Nat → Nat → ℚ
  gamma : Nat → Nat → ℚ
  ensemble_bias : Nat → Nat → ℚ
  alphaInitIsLayer : Bool
  gammaInitIsLayer : Bool
  biasInitIsLayer : Bool

/-- State of a built `Conv1DRank1` layer. -/
structure Conv1DRank1State where
  filters : Nat
  input_dim : Nat
  ensemble_size : Nat
  use_ensemble_bias : Bool
  use_additive_perturbation : Bool
  min_perturbation_value : ℚ
  max_perturbation_value : ℚ
  ensemble_activation : Option (ℚ → ℚ)
  alpha : Nat → Nat → ℚ
  gamma : Nat → Nat → ℚ
  ensemble_bias : Nat → Nat → ℚ
  alphaInitIsLayer : Bool
  gammaInitIsLayer : Bool
  biasInitIsLayer : Bool

/-- The `[batch_size, input_dim]` alpha rows used by `Conv2DRank1.call`. -/
def Conv2DRank1_alphaRows (S : Conv2DRank1State)
    (sample : Nat → Nat → Nat → ℚ) (B : Nat) : Nat → Nat → ℚ :=
  let epm := B / S.ensemble_size
  if S.alphaInitIsLayer then
    rank1SampledRows sample S.min_perturbation_value
      S.max_perturbation_value epm S.input_dim
  else rank1TiledRows S.alpha S.input_dim epm

/-- The `[batch_size, filters]` gamma rows used by `Conv2DRank1.call`. -/
def Conv2DRank1_gammaRows (S : Conv2DRank1State)
    (sample : Nat → Nat → Nat → ℚ) (B : Nat) : Nat → Nat → ℚ :=
  let epm := B / S.ensemble_size
  if S.gammaInitIsLayer then
    rank1SampledRows sample S.min_perturbation_value
      S.max_perturbation_value epm S.filters
  else rank1TiledRows S.gamma S.filters epm

/-- The `[batch_size, filters]` bias rows used by `Conv2DRank1.call`; note
the sampled bias is not clipped. -/
def Conv2DRank1_biasRows (S : Conv2DRank1State)
    (sample : Nat → Nat → Nat → ℚ) (B : Nat) : Nat → Nat → ℚ :=
  let epm := B / S.ensemble_size
  if S.biasInitIsLayer then
    reshape3to2 (transpose102 sample) epm S.filters
  else rank1TiledRows S.ensemble_bias S.filters epm

/-- `Conv2DRank1.call` (channels_last): perturb each example with its row of
the sampled (or tiled) factors, convolve with the shared kernel (`convEx`),
apply the output factor, the member bias and the activation. -/
def Conv2DRank1_call (S : Conv2DRank1State) (convEx : Example2D → Example2D)
    (aSample gSample bSample : Nat → Nat → Nat → ℚ)
    (inputs : List Example2D) : List Example2D :=
  let B := inputs.length
  let alpha := Conv2DRank1_alphaRows S aSample B
  let gamma := Conv2DRank1_gammaRows S gSample B
  let outs := mapFrom (fun j x =>
    if S.use_additive_perturbation then
      fun h w f => convEx (fun p q c => x p q c + alpha j c) h w f + gamma j f
    else
      fun h w f => convEx (fun p q c => x p q c * alpha j c) h w f * gamma j f)
    inputs 0
  let outs := if S.use_ensemble_bias then
      mapFrom (fun j o =>
        fun h w f => o h w f + Conv2DRank1_biasRows S bSample B j f) outs 0
    else outs
  match S.ensemble_activation with
  | none => outs
  | some a => outs.map (applyActivationEx (some a))

/-- The alpha rows used by `Conv1DRank1.call` (same sampling logic). -/
def Conv1DRank1_alphaRows (S : Conv1DRank1State)
    (sample : Nat → Nat → Nat → ℚ) (B : Nat) : Nat → Nat → ℚ :=
  let epm := B / S.ensemble_size
  if S.alphaInitIsLayer then
    rank1SampledRows sample S.min_perturbation_value
      S.max_perturbation_value epm S.input_dim
  else rank1TiledRows S.alpha S.input_dim epm

/-- The gamma rows used by `Conv1DRank1.call`. -/
def Conv1DRank1_gammaRows (S : Conv1DRank1State)
    (sample : Nat → Nat → Nat → ℚ) (B : Nat) : Nat → Nat → ℚ :=
  let epm := B / S.ensemble_size
  if S.gammaInitIsLayer then
    rank1SampledRows sample S.min_perturbation_value
      S.max_perturbation_value epm S.filters
  else rank1TiledRows S.gamma S.filters epm

/-- The bias rows used by `Conv1DRank1.call`. -/
def Conv1DRank1_biasRows (S : Conv1DRank1State)
    (sample : Nat → Nat → Nat → ℚ) (B : Nat) : Nat → Nat → ℚ :=
  let epm := B / S.ensemble_size
  if S.biasInitIsLayer then
    reshape3to2 (transpose102 sample) epm S.filters
  else rank1TiledRows S.ensemble_bias S.filters epm

/-- `Conv1DRank1.call` (channels_last). -/
def Conv1DRank1_call (S : Conv1DRank1State) (convEx : Example1D → Example1D)
    (aSample gSample bSample : Nat → Nat → Nat → ℚ)
    (inputs : List Example1D) : List Example1D :=
  let B := inputs.length
  let alpha := Conv1DRank1_alphaRows S aSample B
  let gamma := Conv1DRank1_gammaRows S gSample B
  let outs := mapFrom (fun j x =>
    if S.use_additive_perturbation then
      fun w f => convEx (fun q c => x q c + alpha j c) w f + gamma j f
    else
      fun w f => convEx (fun q c => x q c * alpha j c) w f * gamma j f)
    inputs 0
  let outs := if S.use_ensemble_bias then
      mapFrom (fun j o =>
        fun w f => o w f + Conv1DRank1_biasRows S bSample B j f) outs 0
    else outs
  match S.ensemble_activation with
  | none => outs
  | some a => outs.map (applyActivationEx1 (some a))

/-- **C7.** In `Conv2DRank1.call` and `Conv1DRank1.call`, when the alpha and
gamma initializers are layer-valued (sampling distributions) and
`examples_per_model = batch_size // ensemble_size` is positive, every alpha
and gamma perturbation-factor entry used in the forward pass equals the
clipped sample `clip(sample[j % epm][j / epm][d])` and lies within
`[min_perturbation_value, max_perturbation_value]`; distinct examples read
distinct (sample, mixture-component) pairs, so each example receives its own
sampled factor (`epm` independent samples per component); and the output
batch size equals the input batch size. -/
theorem rank1_perturbation_bounds
    (S2 : Conv2DRank1State) (S1 : Conv1DRank1State)
    (convEx2 : Example2D → Example2D) (convEx1 : Example1D → Example1D)
    (aS2 gS2 bS2 aS1 gS1 bS1 : Nat → Nat → Nat → ℚ)
    (inputs2 : List Example2D) (inputs1 : List Example1D)
    (hA2 : S2.alphaInitIsLayer = true) (hG2 : S2.gammaInitIsLayer = true)
    (hmm2 : S2.min_perturbation_value ≤ S2.max_perturbation_value)
    (hepm2 : 0 < inputs2.length / S2.ensemble_size)
    (hA1 : S1.alphaInitIsLayer = true) (hG1 : S1.gammaInitIsLayer = true)
    (hmm1 : S1.min_perturbation_value ≤ S1.max_perturbation_value)
    (hepm1 : 0 < inputs1.length / S1.ensemble_size) :
    (∀ j d, d < S2.input_dim →
      Conv2DRank1_alphaRows S2 aS2 inputs2.length j d =
        clipQ (aS2 (j % (inputs2.length / S2.ensemble_size))
          (j / (inputs2.length / S2.ensemble_size)) d)
          S2.min_perturbation_value S2.max_perturbation_value ∧
      S2.min_perturbation_value ≤
        Conv2DRank1_alphaRows S2 aS2 inputs2.length j d ∧
      Conv2DRank1_alphaRows S2 aS2 inputs2.length j d ≤
        S2.max_perturbation_value) ∧
    (∀ j f, f < S2.filters →
      Conv2DRank1_gammaRows S2 gS2 inputs2.length j f =
        clipQ (gS2 (j % (inputs2.length / S2.ensemble_size))
          (j / (inputs2.length / S2.ensemble_size)) f)
          S2.min_perturbation_value S2.max_perturbation_value ∧
      S2.min_perturbation_value ≤
        Conv2DRank1_gammaRows S2 gS2 inputs2.length j f ∧
      Conv2DRank1_gammaRows S2 gS2 inputs2.length j f ≤
        S2.max_perturbation_value) ∧
    (Conv2DRank1_call S2 convEx2 aS2 gS2 bS2 inputs2).length =
      inputs2.length ∧
    (∀ epm j k : Nat, j ≠ k →
      ¬(j % epm = k % epm ∧ j / epm = k / epm)) ∧
    (∀ j d, d < S1.input_dim →
      Conv1DRank1_alphaRows S1 aS1 inputs1.length j d =
        clipQ (aS1 (j % (inputs1.length / S1.ensemble_size))
          (j / (inputs1.length / S1.ensemble_size)) d)
          S1.min_perturbation_value S1.max_perturbation_value ∧
      S1.min_perturbation_value ≤
        Conv1DRank1_alphaRows S1 aS1 inputs1.length j d ∧
      Conv1DRank1_alphaRows S1 aS1 inputs1.length j d ≤
        S1.max_perturbation_value) ∧
    (∀ j f, f < S1.filters →
      Conv1DRank1_gammaRows S1 gS1 inputs1.length j f =
        clipQ (gS1 (j % (inputs1.length / S1.ensemble_size))
          (j / (inputs1.length / S1.ensemble_size)) f)
          S1.min_perturbation_value S1.max_perturbation_value ∧
      S1.min_perturbation_value ≤
        Conv1DRank1_gammaRows S1 gS1 inputs1.length j f ∧
      Conv1DRank1_gammaRows S1 gS1 inputs1.length j f ≤
        S1.max_perturbation_value) ∧
    (Conv1DRank1_call S1 convEx1 aS1 gS1 bS1 inputs1).length =
      inputs1.length := by
  have hrows : ∀ (sample : Nat → Nat → Nat → ℚ) (lo hi : ℚ) (epm D j d : Nat),
      d < D → 0 < epm → lo ≤ hi →
      rank1SampledRows sample lo hi epm D j d =
          clipQ (sample (j % epm) (j / epm) d) lo hi ∧
        lo ≤ rank1SampledRows sample lo hi epm D j d ∧
        rank1SampledRows sample lo hi epm D j d ≤ hi := by
    intro sample lo hi epm D j d hd he hlh
    have heval : rank1SampledRows sample lo hi epm D j d =
        clipQ (sample (j % epm) (j / epm) d) lo hi := by
      simp only [rank1SampledRows]
      rw [reshape3to2_eval _ _ _ _ _ hd he]
      rfl
    exact ⟨heval, heval ▸ (clipQ_mem _ hlh).1, heval ▸ (clipQ_mem _ hlh).2⟩
  refine ⟨?_, ?_, ?_, ?_, ?_, ?_, ?_⟩
  · intro j d hd
    have h := hrows aS2 S2.min_perturbation_value S2.max_perturbation_value
      (inputs2.length / S2.ensemble_size) S2.input_dim j d hd hepm2 hmm2
    simpa only [Conv2DRank1_alphaRows, hA2, if_true] using h
  · intro j f hf
    have h := hrows gS2 S2.min_perturbation_value S2.max_perturbation_value
      (inputs2.length / S2.ensemble_size) S2.filters j f hf hepm2 hmm2
    simpa only [Conv2DRank1_gammaRows, hG2, if_true] using h
  · cases ha : S2.ensemble_activation with
    | none => cases hub : S2.use_ensemble_bias <;>
        simp [Conv2DRank1_call, ha, hub, length_mapFrom]
    | some a => cases hub : S2.use_ensemble_bias <;>
        simp [Conv2DRank1_call, ha, hub, length_mapFrom]
  · intro epm j k hjk
    rintro ⟨h1, h2⟩
    have hj := Nat.div_add_mod j epm
    have hk := Nat.div_add_mod k epm
    rw [h1, h2] at hj
    exact hjk (hj.symm.trans hk)
  · intro j d hd
    have h := hrows aS1 S1.min_perturbation_value S1.max_perturbation_value
      (inputs1.length / S1.ensemble_size) S1.input_dim j d hd hepm1 hmm1
    simpa only [Conv1DRank1_alphaRows, hA1, if_true] using h
  · intro j f hf
    have h := hrows gS1 S1.min_perturbation_value S1.max_perturbation_value
      (inputs1.length / S1.ensemble_size) S1.filters j f hf hepm1 hmm1
    simpa only [Conv1DRank1_gammaRows, hG1, if_true] using h
  · cases ha : S1.ensemble_activation with
    | none => cases hub : S1.use_ensemble_bias <;>
        simp [Conv1DRank1_call, ha, hub, length_mapFrom]
    | some a => cases hub : S1.use_ensemble_bias <;>
        simp [Conv1DRank1_call, ha, hub, length_mapFrom]

/-- Concrete instantiation discharging the hypotheses of
`rank1_perturbation_bounds`: ensemble of one, a one-example batch. -/
theorem rank1_perturbation_bounds_witness :
    Conv2DRank1_alphaRows
        ⟨1, 1, 1, true, false, -10, 10, none, fun _ _ => 0, fun _ _ => 0,
          fun _ _ => 0, true, true, false⟩ (fun _ _ _ => 7) 1 0 0 =
      clipQ 7 (-10) 10 ∧
    (-10 : ℚ) ≤ Conv2DRank1_alphaRows
        ⟨1, 1, 1, true, false, -10, 10, none, fun _ _ => 0, fun _ _ => 0,
          fun _ _ => 0, true, true, false⟩ (fun _ _ _ => 7) 1 0 0 ∧
    (Conv2DRank1_call
        ⟨1, 1, 1, true, false, -10, 10, none, fun _ _ => 0, fun _ _ => 0,
          fun _ _ => 0, true, true, false⟩ (fun x => x) (fun _ _ _ => 7)
        (fun _ _ _ => 7) (fun _ _ _ => 7) [fun _ _ _ => 1]).length = 1 ∧
    ¬(0 % 2 = 1 % 2 ∧ 0 / 2 = 1 / 2) ∧
    (Conv1DRank1_call
        ⟨1, 1, 1, true, false, -10, 10, none, fun _ _ => 0, fun _ _ => 0,
          fun _ _ => 0, true, true, false⟩ (fun x => x) (fun _ _ _ => 7)
        (fun _ _ _ => 7) (fun _ _ _ => 7) [fun _ _ => 1]).length = 1 := by
  have main := rank1_perturbation_bounds
    ⟨1, 1, 1, true, false, -10, 10, none, fun _ _ => 0, fun _ _ => 0,
      fun _ _ => 0, true, true, false⟩
    ⟨1, 1, 1, true, false, -10, 10, none, fun _ _ => 0, fun _ _ => 0,
      fun _ _ => 0, true, true, false⟩
    (fun x => x) (fun x => x)
    (fun _ _ _ => 7) (fun _ _ _ => 7) (fun _ _ _ => 7)
    (fun _ _ _ => 7) (fun _ _ _ => 7) (fun _ _ _ => 7)
    [fun _ _ _ => 1] [fun _ _ => 1]
    rfl rfl (by norm_num) (by norm_num)
    rfl rfl (by norm_num) (by norm_num)
  refine ⟨(main.1 0 0 (by norm_num)).1, (main.1 0 0 (by norm_num)).2.1,
    main.2.2.1, main.2.2.2.1 2 0 1 (by norm_num), main.2.2.2.2.2.2⟩

/-! ### Error raising in the layer file

The only `raise` statements in the repository's layer code are in
`CondConv2D.__init__` / `build` and `DepthwiseCondConv2D.__init__` / `build`;
each error site below is tagged by whether the check guarding it validates
the layer's input shape. -/

/-- The validation errors defined and raised by the repository's own layer
code (`convolutional.py`). -/
inductive LayerError : Type
  | condconvNumExperts
  | condconvRank
  | condconvChannelUndefined
  | depthwiseNumExperts
  | depthwiseRank
  | depthwiseChannelUndefined
deriving DecidableEq

/-- Whether the check guarding the error site validates the shape of the
layer's input (rank / channel-dimension checks on `input_shape`); the
`num_experts < 1` constructor checks validate a constructor hyperparameter,
not an input shape. -/
def isInputShapeValidation : LayerError → Bool
  | LayerError.condconvNumExperts => false
  | LayerError.depthwiseNumExperts => false
  | LayerError.condconvRank => true
  | LayerError.condconvChannelUndefined => true
  | LayerError.depthwiseRank => true
  | LayerError.depthwiseChannelUndefined => true

/-- `CondConv2D.__init__`: `if num_experts < 1: raise ValueError('A CondConv
layer must have at least one expert.')`. -/
def CondConv2D_initCheck (num_experts : Int) : Except LayerError Unit :=
  if num_experts < 1 then Except.error LayerError.condconvNumExperts
  else Except.ok ()

/-- `DepthwiseCondConv2D.__init__`: the same `num_experts < 1` check. -/
def DepthwiseCondConv2D_initCheck (num_experts : Int) :
    Except LayerError Unit :=
  if num_experts < 1 then Except.error LayerError.depthwiseNumExperts
  else Except.ok ()

/-- The shape checks of `CondConv2D.build` (channels_last, channel axis -1):
rank must be exactly 4 and the channel dimension must be defined; on success
returns `input_dim`. -/
def CondConv2D_buildCheck (input_shape : List (Option Nat)) :
    Except LayerError Nat :=
  if input_shape.length ≠ 4 then Except.error LayerError.condconvRank
  else match input_shape.getLast? with
    | some (some c) => Except.ok c
    | _ => Except.error LayerError.condconvChannelUndefined

/-- The shape checks of `DepthwiseCondConv2D.build` (channels_last, channel
axis 3): rank at least 4 (`len(input_shape) < 4` raises) and a defined
channel dimension. -/
def DepthwiseCondConv2D_buildCheck (input_shape : List (Option Nat)) :
    Except LayerError Nat :=
  if input_shape.length < 4 then Except.error LayerError.depthwiseRank
  else match input_shape[3]? with
    | some (some c) => Except.ok c
    | _ => Except.error LayerError.depthwiseChannelUndefined

/-- **C3, counterexample.** The claim that no layer raises a validation error
of its own that is not input-shape validation fails: constructing
`CondConv2D` with `num_experts = 0` raises the layer's own
`'A CondConv layer must have at least one expert.'` error, and the check
guarding it is not input-shape validation. -/
theorem condconv_num_experts_error_not_shape :
    CondConv2D_initCheck 0 = Except.error LayerError.condconvNumExperts ∧
      isInputShapeValidation LayerError.condconvNumExperts = false := by
  constructor
  · rfl
  · rfl

/-- **C3, amended.** Every error raised on the `build` paths of the
repository's layer code is input-shape validation, and the only non-shape
validation errors the layer code raises of its own are the `num_experts ≥ 1`
constructor checks of `CondConv2D` and `DepthwiseCondConv2D`. -/
theorem layer_errors_shape_or_num_experts :
    (∀ s e, CondConv2D_buildCheck s = Except.error e →
      isInputShapeValidation e = true) ∧
    (∀ s e, DepthwiseCondConv2D_buildCheck s = Except.error e →
      isInputShapeValidation e = true) ∧
    (∀ n e, CondConv2D_initCheck n = Except.error e →
      e = LayerError.condconvNumExperts ∧ n < 1) ∧
    (∀ n e, DepthwiseCondConv2D_initCheck n = Except.error e →
      e = LayerError.depthwiseNumExperts ∧ n < 1) := by
  refine ⟨?_, ?_, ?_, ?_⟩
  · intro s e h
    unfold CondConv2D_buildCheck at h
    by_cases hl : s.length ≠ 4
    · rw [if_pos hl] at h
      cases h
      rfl
    · rw [if_neg hl] at h
      match hm : s.getLast? with
      | some (some c) => rw [hm] at h; cases h
      | some none => rw [hm] at h; cases h; rfl
      | none => rw [hm] at h; cases h; rfl
  · intro s e h
    unfold DepthwiseCondConv2D_buildCheck at h
    by_cases hl : s.length < 4
    · rw [if_pos hl] at h
      cases h
      rfl
    · rw [if_neg hl] at h
      match hm : s[3]? with
      | some (some c) => rw [hm] at h; cases h
      | some none => rw [hm] at h; cases h; rfl
      | none => rw [hm] at h; cases h; rfl
  · intro n e h
    unfold CondConv2D_initCheck at h
    by_cases hn : n < 1
    · rw [if_pos hn] at h
      cases h
      exact ⟨rfl, hn⟩
    · rw [if_neg hn] at h
      cases h
  · intro n e h
    unfold DepthwiseCondConv2D_initCheck at h
    by_cases hn : n < 1
    · rw [if_pos hn] at h
      cases h
      exact ⟨rfl, hn⟩
    · rw [if_neg hn] at h
      cases h

/-- Concrete instantiation discharging the hypotheses of
`layer_errors_shape_or_num_experts`. -/
theorem layer_errors_shape_or_num_experts_witness :
    isInputShapeValidation LayerError.condconvRank = true ∧
      isInputShapeValidation LayerError.depthwiseRank = true ∧
      (LayerError.condconvNumExperts = LayerError.condconvNumExperts ∧
        (0 : Int) < 1) ∧
      (LayerError.depthwiseNumExperts = LayerError.depthwiseNumExperts ∧
        (0 : Int) < 1) := by
  have main := layer_errors_shape_or_num_experts
  exact ⟨main.1 [some 1] LayerError.condconvRank rfl,
    main.2.1 [] LayerError.depthwiseRank rfl,
    main.2.2.1 0 LayerError.condconvNumExperts rfl,
    main.2.2.2 0 LayerError.depthwiseNumExperts rfl⟩

/-! ### Training launch scripts (`train/`)

Each script defines a `main` that issues `subprocess.call` invocations.
`train/cifar10.py` ends with `if __name__ == '__main__': pass` and
`train/webvision.py` has no `__main__` guard at all, so executing either
file as a program defines `main` and launches nothing. -/

/-- One `subprocess.call` invocation: the sgn.py path (relative to
`SRC_DIR`) and the argument strings passed with it. -/
structure Launch where
  script : String
  args : List String

/-- The seven launches the `main` function of `train/cifar10.py` would issue
if it were called. -/
def cifar10_main (DATA_DIR OUT_DIR CP_INTERVAL : String) : List Launch :=
  [⟨"cifar/sgn.py",
    ["--data_dir=" ++ DATA_DIR ++ "/cifar10",
     "--output_dir=" ++ OUT_DIR ++ "/cifar10/no_noise",
     "--dataset cifar10",
     "--checkpoint_interval=" ++ CP_INTERVAL]⟩,
   ⟨"cifar/sgn.py",
    ["--data_dir=" ++ DATA_DIR ++ "/cifar10",
     "--output_dir=" ++ OUT_DIR ++ "/cifar10/sym20",
     "--dataset cifar10", "--noisy_labels", "--corruption_type sym",
     "--severity 0.2",
     "--checkpoint_interval=" ++ CP_INTERVAL]⟩,
   ⟨"cifar/sgn.py",
    ["--data_dir=" ++ DATA_DIR ++ "/cifar10",
     "--output_dir=" ++ OUT_DIR ++ "/cifar10/sym40",
     "--dataset cifar10", "--noisy_labels", "--corruption_type sym",
     "--severity 0.4",
     "--checkpoint_interval=" ++ CP_INTERVAL]⟩,
   ⟨"cifar/sgn.py",
    ["--data_dir=" ++ DATA_DIR ++ "/cifar10",
     "--output_dir=" ++ OUT_DIR ++ "/cifar10/sym60",
     "--dataset cifar10", "--noisy_labels", "--corruption_type sym",
     "--severity 0.6",
     "--checkpoint_interval=" ++ CP_INTERVAL]⟩,
   ⟨"cifar/sgn.py",
    ["--data_dir=" ++ DATA_DIR ++ "/cifar10",
     "--output_dir=" ++ OUT_DIR ++ "/cifar10/asym20",
     "--dataset cifar10", "--noisy_labels", "--corruption_type asym",
     "--severity 0.2",
     "--checkpoint_interval=" ++ CP_INTERVAL]⟩,
   ⟨"cifar/sgn.py",
    ["--data_dir=" ++ DATA_DIR ++ "/cifar10",
     "--output_dir=" ++ OUT_DIR ++ "/cifar10/asym40",
     "--dataset cifar10", "--noisy_labels", "--corruption_type asym",
     "--severity 0.4",
     "--checkpoint_interval=" ++ CP_INTERVAL]⟩,
   ⟨"cifar/sgn.py",
    ["--data_dir=" ++ DATA_DIR ++ "/cifar10",
     "--output_dir=" ++ OUT_DIR ++ "/cifar10/asym60",
     "--dataset cifar10", "--noisy_labels", "--corruption_type asym",
     "--severity 0.6",
     "--checkpoint_interval=" ++ CP_INTERVAL]⟩]

/-- The single launch the `main` function of `train/webvision.py` would
issue if it were called (note the `--flag: value` argument style it uses). -/
def webvision_main (DATA_DIR OUT_DIR CP_INTERVAL : String) : List Launch :=
  [⟨"webvision/sgn.py",
    ["--data_dir: " ++ DATA_DIR ++ "/webvision",
     "--output_dir: " ++ OUT_DIR ++ "/webvision",
     "--checkpoint_interval: " ++ CP_INTERVAL]⟩]

/-- Executing `train/cifar10.py` as a program: the module defines `main`,
then its `if __name__ == '__main__':` guard executes `pass`, so no
`subprocess.call` runs regardless of the arguments. -/
def cifar10_asProgram (_argv : List String) : List Launch := []

/-- Executing `train/webvision.py` as a program: the module defines `main`
and never calls it (there is no `__main__` guard), so no `subprocess.call`
runs. -/
def webvision_asProgram (_argv : List String) : List Launch := []

/-- **C4, divergence.** Executed as programs, `train/cifar10.py` and
`train/webvision.py` launch no sgn.py run at all for any arguments —
`cifar10.py`'s `__main__` guard body is `pass` and `webvision.py` never
calls `main` — even though their `main` functions would issue seven
(resp. one) launches.  This contradicts the claim that every execution of a
training script launches the corresponding configured runs. -/
theorem train_scripts_launch_nothing :
    ∀ (argv : List String) (d o c : String),
      cifar10_asProgram argv = [] ∧
      webvision_asProgram argv = [] ∧
      (cifar10_main d o c).length = 7 ∧
      (webvision_main d o c).length = 1 := by
  intro argv d o c
  exact ⟨rfl, rfl, rfl, rfl⟩

/-! ### Dataset subsampling scripts (`subsample/`) -/

/-- `df.sample(frac=f)` selects `round(f * len(df))` randomly chosen rows;
the random row choice is abstracted to this row-count contract. -/
def pandasSampleSize (frac : ℚ) (n : Nat) : Nat :=
  (round (frac * (n : ℚ))).toNat

/-- `subsample-cifar10.py`: assemble the training set from the five
`data_batch_k` pickles and the test set from `test_batch`, draw a
`frac=0.05` sample of each, and write the training subsample to
`datasets/subsample/cifar10/data` and the test subsample to
`datasets/subsample/cifar10/train`.  Each written split file is recorded as
(path, number of rows). -/
def subsampleCifar10_run {α : Type} (b1 b2 b3 b4 b5 test : List α) :
    List (String × Nat) :=
  let train := b1 ++ b2 ++ b3 ++ b4 ++ b5
  [("datasets/subsample/cifar10/data",
    pandasSampleSize (1 / 20) train.length),
   ("datasets/subsample/cifar10/train",
    pandasSampleSize (1 / 20) test.length)]

/-- `subsample-cifar100.py`: train and test each come from a single pickle;
same 5% sample, written under `datasets/subsample/cifar100/`. -/
def subsampleCifar100_run {α : Type} (train test : List α) :
    List (String × Nat) :=
  [("datasets/subsample/cifar100/data",
    pandasSampleSize (1 / 20) train.length),
   ("datasets/subsample/cifar100/train",
    pandasSampleSize (1 / 20) test.length)]

/-- **C8.** Each subsample script assembles the full training set (for
CIFAR-10, all five data batches of 10000 examples each) and the full test
set (10000 examples), draws a 5% random subsample of each, and writes the
training and test subsamples as two pickled split files under
`datasets/subsample/<dataset>/`, the training split holding 2500 examples
and the test split 500. -/
theorem subsample_split_sizes {α β : Type}
    (b1 b2 b3 b4 b5 test : List α) (tr100 te100 : List β)
    (h1 : b1.length = 10000) (h2 : b2.length = 10000)
    (h3 : b3.length = 10000) (h4 : b4.length = 10000)
    (h5 : b5.length = 10000) (ht : test.length = 10000)
    (h6 : tr100.length = 50000) (h7 : te100.length = 10000) :
    subsampleCifar10_run b1 b2 b3 b4 b5 test =
      [("datasets/subsample/cifar10/data", 2500),
       ("datasets/subsample/cifar10/train", 500)] ∧
    subsampleCifar100_run tr100 te100 =
      [("datasets/subsample/cifar100/data", 2500),
       ("datasets/subsample/cifar100/train", 500)] := by
  have e1 : pandasSampleSize (1 / 20) 50000 = 2500 := by
    norm_num [pandasSampleSize, round_eq]
    rfl
  have e2 : pandasSampleSize (1 / 20) 10000 = 500 := by
    norm_num [pandasSampleSize, round_eq]
    rfl
  constructor
  · have l5 : (b1 ++ b2 ++ b3 ++ b4 ++ b5).length = 50000 := by
      simp [h1, h2, h3, h4, h5]
    simp only [subsampleCifar10_run]
    rw [l5, ht, e1, e2]
  · simp only [subsampleCifar100_run]
    rw [h6, h7, e1, e2]

/-- Concrete instantiation discharging the hypotheses of
`subsample_split_sizes`. -/
theorem subsample_split_sizes_witness :
    subsampleCifar10_run (List.replicate 10000 0) (List.replicate 10000 0)
        (List.replicate 10000 0) (List.replicate 10000 0)
        (List.replicate 10000 0) (List.replicate 10000 0) =
      [("datasets/subsample/cifar10/data", 2500),
       ("datasets/subsample/cifar10/train", 500)] ∧
    subsampleCifar100_run (List.replicate 50000 0)
        (List.replicate 10000 0) =
      [("datasets/subsample/cifar100/data", 2500),
       ("datasets/subsample/cifar100/train", 500)] := by
  exact subsample_split_sizes (List.replicate 10000 0)
    (List.replicate 10000 0) (List.replicate 10000 0)
    (List.replicate 10000 0) (List.replicate 10000 0)
    (List.replicate 10000 0) (List.replicate 50000 0)
    (List.replicate 10000 0)
    (List.length_replicate _ _) (List.length_replicate _ _)
    (List.length_replicate _ _) (List.length_replicate _ _)
    (List.length_replicate _ _) (List.length_replicate _ _)
    (List.length_replicate _ _) (List.length_replicate _ _)

/-! ### The tfds builder for the subsampled cifar10 (`subsample/tfds/`) -/

/-- A pickled pandas DataFrame, abstracted to its column names and row
count. -/
structure Frame where
  cols : List String
  nrows : Nat

/-- The pair of split pickles written by `subsample-cifar10.py`, as
(file name, frame): the script writes DataFrames with columns
`image`, `labels` to files named `data` and `train`. -/
def subsampleCifar10_pickles (ntrain ntest : Nat) : List (String × Frame) :=
  [("data", ⟨["image", "labels"], ntrain⟩),
   ("train", ⟨["image", "labels"], ntest⟩)]

/-- `ds[key]` on a loaded DataFrame: `KeyError(key)` when the column is
absent, otherwise the column's series (abstracted to its length). -/
def frameGet (ds : Frame) (key : String) : Except String Nat :=
  if key ∈ ds.cols then Except.ok ds.nrows else Except.error key

/-- `Builder._generate_examples`: load the pickle, read `ds['images']` and
`ds['labels']`, and yield one `(index, record)` pair per zipped row (the
indices `0, 1, ...`). -/
def Builder_generateExamples (ds : Frame) : Except String (List Nat) := do
  let ni ← frameGet ds "images"
  let nl ← frameGet ds "labels"
  Except.ok (List.range (min ni nl))

/-- `Builder._split_generators`: locate the files named `train_batch` and
`test_batch` in the extracted manual archive. -/
def Builder_splitGenerators (archive : List (String × Frame)) :
    Option (Frame × Frame) :=
  match List.lookup "train_batch" archive,
      List.lookup "test_batch" archive with
  | some tr, some te => some (tr, te)
  | _, _ => none

/-- **C10, divergence.** The builder cannot consume the pickles produced by
`subsample-cifar10.py`: the archive holds files named `data` and `train`, so
`_split_generators` finds neither `train_batch` nor `test_batch`; and even
applied directly to either pickle, `_generate_examples` fails with
`KeyError('images')` because the DataFrame column is named `image`. -/
theorem builder_cannot_consume_subsample :
    ∀ ntrain ntest : Nat,
      Builder_splitGenerators (subsampleCifar10_pickles ntrain ntest) =
        none ∧
      List.lookup "train_batch" (subsampleCifar10_pickles ntrain ntest) =
        none ∧
      (∀ p ds, (p, ds) ∈ subsampleCifar10_pickles ntrain ntest →
        Builder_generateExamples ds = Except.error "images") := by
  intro ntrain ntest
  refine ⟨rfl, rfl, ?_⟩
  intro p ds hmem
  simp only [subsampleCifar10_pickles, List.mem_cons, List.mem_singleton,
    Prod.mk.injEq, List.not_mem_nil, or_false] at hmem
  rcases hmem with ⟨hp, hd⟩ | ⟨hp, hd⟩
  · rw [hd]
    rfl
  · rw [hd]
    rfl

/-- Concrete instantiation of `builder_cannot_consume_subsample` at the
split sizes the subsampler actually produces. -/
theorem builder_cannot_consume_subsample_witness :
    Builder_splitGenerators (subsampleCifar10_pickles 2500 500) = none ∧
      Builder_generateExamples ⟨["image", "labels"], 2500⟩ =
        Except.error "images" := by
  have main := builder_cannot_consume_subsample 2500 500
  exact ⟨main.1, main.2.2 "data" ⟨["image", "labels"], 2500⟩
    (by simp [subsampleCifar10_pickles])⟩

end SGN
